import Mathlib

/-
Verification of the rpi-smart-farm core: a shallow embedding of the
reconciler control engine (src/_reconciler.py) and the serial packet
layer (src/_packet.py), with theorems checking the specified properties.

Conventions of the embedding:
* Python floats are modelled as rationals (ℚ); Python ints as ℤ / Nat.
* The wall clock used by _is_pump_disabled is passed explicitly as
  `now`, the current time of day in seconds (datetime.time comparison
  on valid (hour, minute) values coincides with comparison of
  hour*3600 + minute*60 seconds-of-day encodings).
* In-place mutation of ReconcilerState is modelled by returning the
  updated record.
-/

namespace Farm

/-- Python round() on a nonnegative-or-any rational: round half to even. -/
def pyRound (q : ℚ) : ℤ :=
  let f : ℤ := ⌊q⌋
  let r : ℚ := q - f
  if r < 1/2 then f
  else if r > 1/2 then f + 1
  else if f % 2 = 0 then f else f + 1

/-- src/_reconciler.py `_clamp`. -/
def clamp (v lo hi : ℚ) : ℚ :=
  if v < lo then lo else if v > hi then hi else v

/-- src/_reconciler.py `_ema_update`. -/
def ema_update (prev : Option ℚ) (x alpha : ℚ) : ℚ :=
  let a := clamp alpha 0 1
  match prev with
  | none => x
  | some p => (1 - a) * p + a * x

/-- The warmup-SMA stage of reconcile_sensor_data for one channel
(lines 108-122 of src/_reconciler.py): push the raw sample, evict the
oldest if the buffer exceeds `count`, return the new buffer and its
arithmetic mean; a zero `count` disables the stage and passes the raw
sample through. -/
def smaStep (count : Nat) (buf : List ℚ) (x : ℚ) : List ℚ × ℚ :=
  if 0 < count then
    let b0 := buf ++ [x]
    let b := if count < b0.length then b0.tail else b0
    (b, b.sum / (b.length : ℚ))
  else (buf, x)

/-- src/_reconciler.py `ReconcilerConfig`. -/
structure ReconcilerConfig where
  moisture_range : ℚ × ℚ
  target_inner_temp : ℚ
  pump_disable_times : List (Nat × Nat × Nat × Nat)
deriving DecidableEq

/-- src/_reconciler.py `ReconcilerTune`. -/
structure ReconcilerTune where
  pump_Kp : ℚ
  pump_Ki : ℚ
  pump_Kd : ℚ
  peltier_Kp : ℚ
  peltier_Ki : ℚ
  peltier_Kd : ℚ
  temp_ema_alpha : ℚ
  temp_ema_count : Nat
  moisture_ema_alpha : ℚ
  moisture_ema_count : Nat
  temp_deadband : ℚ
  moisture_deadband : ℚ
  cutoff : ℤ
  der_tau : ℚ
  aw_limit : ℚ
deriving DecidableEq

/-- src/_packet.py `SensorReport`. -/
structure SensorReport where
  moisture : ℤ
  temp_inner : ℤ
  humd_inner : ℤ
  temp_outer : ℤ
  humd_outer : ℤ
  illumination : Option ℚ := none
deriving DecidableEq

/-- src/_reconciler.py `ReconcilerCommand`. -/
structure ReconcilerCommand where
  pump_level : ℤ
  peltier_level : ℤ
  peltier_forward : ℤ
deriving DecidableEq

/-- src/_reconciler.py `ReconcilerState`. -/
structure ReconcilerState where
  temp_ema : List ℚ := []
  moisture_ema : List ℚ := []
  integral_moisture : ℚ := 0
  last_moisture_error : ℚ := 0
  integral_temp : ℚ := 0
  last_temp_error : ℚ := 0
  filt_moist : Option ℚ := none
  filt_temp : Option ℚ := none
  der_moist : ℚ := 0
  der_temp : ℚ := 0
deriving DecidableEq

/-- One iteration of the window loop in `_is_pump_disabled`: does the
window (start_h, start_m, end_h, end_m) cover the time of day `now`
(in seconds)?  A window wrapping midnight (start > end) covers
current ≥ start or current < end; otherwise start ≤ current < end. -/
def window_disables (w : Nat × Nat × Nat × Nat) (now : ℚ) : Bool :=
  let s : ℚ := (w.1 : ℚ) * 3600 + (w.2.1 : ℚ) * 60
  let e : ℚ := (w.2.2.1 : ℚ) * 3600 + (w.2.2.2 : ℚ) * 60
  if e < s then decide (s ≤ now) || decide (now < e)
  else decide (s ≤ now) && decide (now < e)

/-- src/_reconciler.py `_is_pump_disabled`, with the wall clock passed
as `now`, the current time of day in seconds. -/
def is_pump_disabled (config : ReconcilerConfig) (now : ℚ) : Bool :=
  config.pump_disable_times.any fun w => window_disables w now

/-- The dt clamp at the top of reconcile_sensor_data (lines 103-104):
non-positive dt is replaced by the epsilon 1e-3. -/
def effDt (dt : ℚ) : ℚ := if dt ≤ 0 then 1/1000 else dt

/-- The temperature (peltier) PID step of reconcile_sensor_data
(lines 152-178 of src/_reconciler.py): derivative low-pass, deadband,
conditional integration, anti-windup clamp.  Returns
(clamped output u, new integral, new derivative-filter value, error). -/
def peltierStep (tune : ReconcilerTune)
    (target filt lastErr derPrev integral dt : ℚ) : ℚ × ℚ × ℚ × ℚ :=
  let a_der := if 0 < tune.der_tau then tune.der_tau / (tune.der_tau + dt) else 0
  let e0 := target - filt
  let e := if |e0| < tune.temp_deadband then 0 else e0
  let raw_d := (e - lastErr) / dt
  let der := a_der * derPrev + (1 - a_der) * raw_d
  let u_noI := tune.peltier_Kp * e + tune.peltier_Kd * der
  let u_tmp := u_noI + tune.peltier_Ki * integral
  let u_sat := clamp u_tmp (-1023) 1023
  let worsen := ((1023 : ℚ) ≤ u_sat ∧ 0 < e) ∨ (u_sat ≤ (-1023 : ℚ) ∧ e < 0)
  let integral1 := if ¬ worsen ∧ e ≠ 0 then integral + e * dt else integral
  let I0 := tune.peltier_Ki * integral1
  let It := if 0 < tune.peltier_Ki then clamp I0 (-tune.aw_limit) tune.aw_limit else I0
  let integral2 := if 0 < tune.peltier_Ki then It / tune.peltier_Ki else integral1
  let u := clamp (u_noI + It) (-1023) 1023
  (u, integral2, der, e)

/-- src/_reconciler.py `reconcile_sensor_data`.  `now` is the current
time of day in seconds (the datetime.now() impurity made explicit). -/
def reconcile_sensor_data (prev_state : ReconcilerState)
    (config : ReconcilerConfig) (tune : ReconcilerTune)
    (report : SensorReport) (dt0 now : ℚ) :
    ReconcilerState × ReconcilerCommand :=
  let dt := effDt dt0
  let tRes := smaStep tune.temp_ema_count prev_state.temp_ema (report.temp_inner : ℚ)
  let mRes := smaStep tune.moisture_ema_count prev_state.moisture_ema (report.moisture : ℚ)
  let filt_temp := ema_update prev_state.filt_temp tRes.2 tune.temp_ema_alpha
  let filt_moist := ema_update prev_state.filt_moist mRes.2 tune.moisture_ema_alpha
  let pump0 : ℤ :=
    if is_pump_disabled config now then 0
    else if filt_moist < config.moisture_range.1 - tune.moisture_deadband then 1023
    else if config.moisture_range.2 + tune.moisture_deadband < filt_moist then 0
    else 0
  let pump_level : ℤ := if pump0 < tune.cutoff then 0 else pump0
  let p := peltierStep tune config.target_inner_temp filt_temp
    prev_state.last_temp_error prev_state.der_temp prev_state.integral_temp dt
  let peltier_forward : ℤ := if 0 ≤ p.1 then 0 else 1
  let lvl : ℤ := pyRound |p.1|
  let peltier_level : ℤ := if lvl < tune.cutoff then 0 else lvl
  ({ temp_ema := tRes.1
     moisture_ema := mRes.1
     integral_moisture := prev_state.integral_moisture
     last_moisture_error := prev_state.last_moisture_error
     integral_temp := p.2.1
     last_temp_error := p.2.2.2
     filt_moist := some filt_moist
     filt_temp := some filt_temp
     der_moist := prev_state.der_moist
     der_temp := p.2.2.1 },
   { pump_level := pump_level
     peltier_level := peltier_level
     peltier_forward := peltier_forward })

/-! ### Checked variant of the reconciler

Every Python division in reconcile_sensor_data is modelled by `divO`,
which fails on a zero divisor exactly as Python float division raises
ZeroDivisionError.  `reconcile_checked` mirrors `reconcile_sensor_data`
with these fallible divisions; proving it always returns `some` shows
the reconciler is total on its inputs. -/

/-- Division that fails on a zero divisor. -/
def divO (a b : ℚ) : Option ℚ := if b = 0 then none else some (a / b)

/-- `smaStep` with the checked division. -/
def smaStepChecked (count : Nat) (buf : List ℚ) (x : ℚ) :
    Option (List ℚ × ℚ) :=
  if 0 < count then
    let b0 := buf ++ [x]
    let b := if count < b0.length then b0.tail else b0
    (divO b.sum (b.length : ℚ)).map fun s => (b, s)
  else some (buf, x)

/-- `peltierStep` with the checked divisions (explicit binds). -/
def peltierStepChecked (tune : ReconcilerTune)
    (target filt lastErr derPrev integral dt : ℚ) :
    Option (ℚ × ℚ × ℚ × ℚ) :=
  (if 0 < tune.der_tau then divO tune.der_tau (tune.der_tau + dt)
    else some 0).bind fun a_der =>
  let e0 := target - filt
  let e := if |e0| < tune.temp_deadband then 0 else e0
  (divO (e - lastErr) dt).bind fun raw_d =>
  let der := a_der * derPrev + (1 - a_der) * raw_d
  let u_noI := tune.peltier_Kp * e + tune.peltier_Kd * der
  let u_tmp := u_noI + tune.peltier_Ki * integral
  let u_sat := clamp u_tmp (-1023) 1023
  let worsen := ((1023 : ℚ) ≤ u_sat ∧ 0 < e) ∨ (u_sat ≤ (-1023 : ℚ) ∧ e < 0)
  let integral1 := if ¬ worsen ∧ e ≠ 0 then integral + e * dt else integral
  let I0 := tune.peltier_Ki * integral1
  let It := if 0 < tune.peltier_Ki then clamp I0 (-tune.aw_limit) tune.aw_limit
    else I0
  (if 0 < tune.peltier_Ki then divO It tune.peltier_Ki
    else some integral1).bind fun integral2 =>
  let u := clamp (u_noI + It) (-1023) 1023
  some (u, integral2, der, e)

/-- `reconcile_sensor_data` with every division checked (explicit
binds). -/
def reconcile_checked (prev_state : ReconcilerState)
    (config : ReconcilerConfig) (tune : ReconcilerTune)
    (report : SensorReport) (dt0 now : ℚ) :
    Option (ReconcilerState × ReconcilerCommand) :=
  let dt := effDt dt0
  (smaStepChecked tune.temp_ema_count prev_state.temp_ema
    (report.temp_inner : ℚ)).bind fun tRes =>
  (smaStepChecked tune.moisture_ema_count prev_state.moisture_ema
    (report.moisture : ℚ)).bind fun mRes =>
  let filt_temp := ema_update prev_state.filt_temp tRes.2 tune.temp_ema_alpha
  let filt_moist := ema_update prev_state.filt_moist mRes.2 tune.moisture_ema_alpha
  let pump0 : ℤ :=
    if is_pump_disabled config now then 0
    else if filt_moist < config.moisture_range.1 - tune.moisture_deadband then 1023
    else if config.moisture_range.2 + tune.moisture_deadband < filt_moist then 0
    else 0
  let pump_level : ℤ := if pump0 < tune.cutoff then 0 else pump0
  (peltierStepChecked tune config.target_inner_temp filt_temp
    prev_state.last_temp_error prev_state.der_temp prev_state.integral_temp
    dt).bind fun p =>
  let peltier_forward : ℤ := if 0 ≤ p.1 then 0 else 1
  let lvl : ℤ := pyRound |p.1|
  let peltier_level : ℤ := if lvl < tune.cutoff then 0 else lvl
  some
    ({ temp_ema := tRes.1
       moisture_ema := mRes.1
       integral_moisture := prev_state.integral_moisture
       last_moisture_error := prev_state.last_moisture_error
       integral_temp := p.2.1
       last_temp_error := p.2.2.2
       filt_moist := some filt_moist
       filt_temp := some filt_temp
       der_moist := prev_state.der_moist
       der_temp := p.2.2.1 },
     { pump_level := pump_level
       peltier_level := peltier_level
       peltier_forward := peltier_forward })

/-- Modelled from the spec: a pump-disable window is active, worded as
in the spec -- with start > end the window wraps midnight and is
active when current ≥ start or current < end; otherwise it is active
when start ≤ current < end.  Times are encoded as seconds of day. -/
def windowActiveSpec (w : Nat × Nat × Nat × Nat) (now : ℚ) : Prop :=
  let s : ℚ := (w.1 : ℚ) * 3600 + (w.2.1 : ℚ) * 60
  let e : ℚ := (w.2.2.1 : ℚ) * 3600 + (w.2.2.2 : ℚ) * 60
  if s > e then now ≥ s ∨ now < e else s ≤ now ∧ now < e

/-- Folding `smaStep` over a sample trajectory from an empty warmup
buffer, tracking (buffer, last SMA value). -/
def runSMA (count : Nat) (xs : List ℚ) : List ℚ × ℚ :=
  xs.foldl (fun acc x => smaStep count acc.1 x) ([], 0)

/-! ### Packet layer (src/_packet.py)

Lines on the wire are modelled as lists of characters.  The serial
transport is modelled inside `LinkState`: `writes` records every line
written, `queue` is the packet queue filled by the background reader,
`lastHeartbeat` the liveness timestamp.  Failures are modelled by
`Except PacketError`. -/

/-- src/_packet.py kind constants (inbound). -/
def KIND_SENSOR_REPORT : ℤ := 0
/-- src/_packet.py `KIND_HEARTBEAT`. -/
def KIND_HEARTBEAT : ℤ := 9
/-- src/_packet.py outbound command kinds. -/
def KIND_CMD_PUMP : ℤ := 0
/-- src/_packet.py `KIND_CMD_PELTIER`. -/
def KIND_CMD_PELTIER : ℤ := 1
/-- src/_packet.py `KIND_CMD_FANS`. -/
def KIND_CMD_FANS : ℤ := 2

/-- The exceptions the packet layer can raise: ValueError from the
send validations, RuntimeError from the serial-not-open guards. -/
inductive PacketError where
  | valueError : PacketError
  | runtimeError : PacketError
deriving DecidableEq

/-- Decoded payloads pushed on the packet queue (ParsedPayload). -/
inductive Payload where
  | report : SensorReport → Payload
  | other : List (List Char) → Payload
deriving DecidableEq

/-- The observable state of a `PacketConnection`: whether the serial
handle exists (`self.ser`), the `_is_alive` flag, the last-heartbeat
timestamp, the packet queue, and the list of lines written so far. -/
structure LinkState where
  serOpen : Bool
  aliveFlag : Bool
  lastHeartbeat : ℚ
  queue : List (ℤ × Payload)
  writes : List (List Char)
deriving DecidableEq

/-- One decimal digit as a character (the decimal digits of Python
str(int)). -/
def digitChar (n : Nat) : Char :=
  if n = 0 then '0' else if n = 1 then '1' else if n = 2 then '2'
  else if n = 3 then '3' else if n = 4 then '4' else if n = 5 then '5'
  else if n = 6 then '6' else if n = 7 then '7' else if n = 8 then '8'
  else '9'

/-- Decimal representation, fuel-based so that it reduces
definitionally; the fuel always suffices because n / 10 < n. -/
def toDecimalAux : Nat → Nat → List Char
  | 0, _ => []
  | fuel + 1, n =>
    if n < 10 then [digitChar n]
    else toDecimalAux fuel (n / 10) ++ [digitChar (n % 10)]

/-- Decimal representation of a natural number, most significant digit
first (Python str on a nonnegative int). -/
def toDecimal (n : Nat) : List Char := toDecimalAux (n + 1) n

/-- Python str on an int. -/
def intRepr (z : ℤ) : List Char :=
  if z < 0 then '-' :: toDecimal (-z).toNat else toDecimal z.toNat

/-- Python " , ".join-style joining with a comma separator
(`",".join(fields)` in `_send_fields`). -/
def joinComma : List (List Char) → List Char
  | [] => []
  | [f] => f
  | f :: fs => f ++ ',' :: joinComma fs

/-- The line written by `_send_fields`: comma-joined fields plus a
terminating newline. -/
def encodeLine (fields : List (List Char)) : List Char :=
  joinComma fields ++ ['\n']

/-- src/_packet.py `_send_fields`: raises RuntimeError when the serial
port is not open, otherwise writes the encoded line. -/
def send_fields (st : LinkState) (fields : List (List Char)) :
    Except PacketError LinkState :=
  if st.serOpen then .ok { st with writes := st.writes ++ [encodeLine fields] }
  else .error .runtimeError

/-- src/_packet.py `send_pump`. -/
def send_pump (st : LinkState) (level : ℤ) : Except PacketError LinkState :=
  if 0 ≤ level ∧ level ≤ 1023 then
    send_fields st [intRepr KIND_CMD_PUMP, intRepr level]
  else .error .valueError

/-- src/_packet.py `send_peltier` (level validated first, then the
direction flag). -/
def send_peltier (st : LinkState) (level is_forward : ℤ) :
    Except PacketError LinkState :=
  if 0 ≤ level ∧ level ≤ 1023 then
    if is_forward = 0 ∨ is_forward = 1 then
      send_fields st [intRepr KIND_CMD_PELTIER, intRepr level, intRepr is_forward]
    else .error .valueError
  else .error .valueError

/-- src/_packet.py `send_fans`. -/
def send_fans (st : LinkState) (level : ℤ) : Except PacketError LinkState :=
  if 0 ≤ level ∧ level ≤ 1023 then
    send_fields st [intRepr KIND_CMD_FANS, intRepr level]
  else .error .valueError

/-- src/_packet.py `send_heartbeat`. -/
def send_heartbeat (st : LinkState) : Except PacketError LinkState :=
  send_fields st [intRepr KIND_HEARTBEAT]

/-- src/_packet.py `read_packet`: RuntimeError when the port is not
open; otherwise the head of the queue, or `none` on timeout (empty
queue within the deadline). -/
def read_packet (st : LinkState) :
    Except PacketError (LinkState × Option (ℤ × Payload)) :=
  if st.serOpen then
    match st.queue with
    | [] => .ok (st, none)
    | p :: rest => .ok ({ st with queue := rest }, some p)
  else .error .runtimeError

/-- src/_packet.py `is_alive`. -/
def isAlive (st : LinkState) (now heartbeatTimeout : ℚ) : Bool :=
  if ¬ st.serOpen || ¬ st.aliveFlag then false
  else decide (now - st.lastHeartbeat < heartbeatTimeout)

/-- Python str.split "," on a character list (always at least one
part). -/
def splitComma : List Char → List (List Char)
  | [] => [[]]
  | c :: rest =>
    match splitComma rest with
    | [] => [[]]
    | f :: fs => if c = ',' then [] :: f :: fs else (c :: f) :: fs

/-- Characters removed by Python str.strip(). -/
def isSpaceChar (c : Char) : Bool :=
  c = ' ' || c = '\t' || c = '\n' || c = '\r' || c = '\x0b' || c = '\x0c'

/-- Python str.strip(): drop whitespace from both ends. -/
def stripChars (s : List Char) : List Char :=
  ((s.dropWhile isSpaceChar).reverse.dropWhile isSpaceChar).reverse

/-- One of the characters 0-9. -/
def isDigitChar (c : Char) : Bool :=
  decide ('0' ≤ c) && decide (c ≤ '9')

/-- Numeric value of a digit string. -/
def digitsVal (s : List Char) : Nat :=
  s.foldl (fun a c => 10 * a + (c.toNat - 48)) 0

/-- Python int(s, 10) on an already-stripped string: an optional sign
followed by at least one decimal digit; anything else raises
ValueError (`none`). -/
def pyInt (s : List Char) : Option ℤ :=
  match s with
  | '-' :: rest =>
    if rest ≠ [] ∧ rest.all isDigitChar then some (-(digitsVal rest : ℤ)) else none
  | '+' :: rest =>
    if rest ≠ [] ∧ rest.all isDigitChar then some ((digitsVal rest : ℤ)) else none
  | _ =>
    if s ≠ [] ∧ s.all isDigitChar then some ((digitsVal s : ℤ)) else none

/-- src/_packet.py `_parse_line`: split on commas, strip each part,
parse the first as the kind; a failed parse returns `none`. -/
def parse_line (line : List Char) : Option (ℤ × List (List Char)) :=
  match (splitComma line).map stripChars with
  | [] => none
  | k :: rest => (pyInt k).map fun kind => (kind, rest)

/-- src/_packet.py `_decode_sensor_report`: exactly five integer
fields; the illumination reading `light` is appended locally.  A wrong
field count or a non-integer field raises ValueError (`none`). -/
def decode_sensor_report (fields : List (List Char)) (light : ℚ) :
    Option SensorReport :=
  if fields.length = 5 then
    match fields.map pyInt with
    | [some a, some b, some c, some d, some e] =>
      some { moisture := a, temp_inner := b, humd_inner := c,
             temp_outer := d, humd_outer := e, illumination := some light }
    | _ => none
  else none

/-- One iteration of `_background_reader` on a received raw line
(lines 126-184 of src/_packet.py): decode and strip; drop empty or
unparseable lines; a heartbeat only refreshes the timestamp; a sensor
report is decoded and queued (a decode error is caught and dropped);
any other kind is queued with its fields.  `now` is the monotonic
clock, `light` the illumination reading. -/
def processLine (st : LinkState) (raw : List Char) (now light : ℚ) : LinkState :=
  let line := stripChars raw
  if line = [] then st
  else
    match parse_line line with
    | none => st
    | some (kind, fields) =>
      if kind = KIND_HEARTBEAT then { st with lastHeartbeat := now }
      else if kind = KIND_SENSOR_REPORT then
        match decode_sensor_report fields light with
        | none => st
        | some r => { st with queue := st.queue ++ [(kind, Payload.report r)] }
      else { st with queue := st.queue ++ [(kind, Payload.other fields)] }

/-- A single comma-separated newline-terminated line: exactly one
newline, at the end. -/
def singleLine (l : List Char) : Prop :=
  l.count '\n' = 1 ∧ l.getLast? = some '\n'

/-! ### Concrete fixtures used by witnesses and counterexamples -/

/-- The default ReconcilerTune of src/_reconciler.py. -/
def sampleTune : ReconcilerTune :=
  { pump_Kp := 10, pump_Ki := 1/10, pump_Kd := 1/10,
    peltier_Kp := 50, peltier_Ki := 1/5, peltier_Kd := 1/1000,
    temp_ema_alpha := 1/10, temp_ema_count := 1,
    moisture_ema_alpha := 1/10, moisture_ema_count := 1,
    temp_deadband := 1, moisture_deadband := 1,
    cutoff := 64, der_tau := 1, aw_limit := 2 }

/-- A tune with a zero peltier integral gain and a unit proportional
gain. -/
def zeroKiTune : ReconcilerTune :=
  { pump_Kp := 10, pump_Ki := 1/10, pump_Kd := 1/10,
    peltier_Kp := 1, peltier_Ki := 0, peltier_Kd := 0,
    temp_ema_alpha := 1, temp_ema_count := 1,
    moisture_ema_alpha := 1, moisture_ema_count := 1,
    temp_deadband := 1, moisture_deadband := 1,
    cutoff := 64, der_tau := 1, aw_limit := 2 }

/-- The default ReconcilerConfig (no disable windows). -/
def sampleConfig : ReconcilerConfig :=
  { moisture_range := (20, 60), target_inner_temp := 20,
    pump_disable_times := [] }

/-- A config with the 22:00-06:00 pump disable window of the spec
scenarios. -/
def nightConfig : ReconcilerConfig :=
  { moisture_range := (20, 60), target_inner_temp := 20,
    pump_disable_times := [(22, 0, 6, 0)] }

/-- The fresh ReconcilerState created at process start. -/
def sampleState : ReconcilerState := {}

/-- The sensor report of spec scenario A: dry soil, on-target inner
temperature. -/
def sampleReport : SensorReport :=
  { moisture := 10, temp_inner := 20, humd_inner := 50,
    temp_outer := 18, humd_outer := 55 }

/-- A report with a hot inner temperature (used to exercise the
integral update). -/
def hotReport : SensorReport :=
  { moisture := 10, temp_inner := 30, humd_inner := 50,
    temp_outer := 18, humd_outer := 55 }

/-- An open link with empty queue and no writes. -/
def stOpen : LinkState :=
  { serOpen := true, aliveFlag := true, lastHeartbeat := 0,
    queue := [], writes := [] }

/-- A link that is not open (before open() or after close()). -/
def stClosed : LinkState :=
  { serOpen := false, aliveFlag := false, lastHeartbeat := 0,
    queue := [], writes := [] }

/-- The malformed inbound line of spec scenario C. -/
def abcLine : List Char := ['a', 'b', 'c', ',', '1', ',', '2', '\n']

/-! ### Theorems -/

/-- Claim C8: an inbound heartbeat line (kind 9, e.g. the line "9\n")
only updates the last-heartbeat timestamp; it is never pushed onto the
packet queue, so a subsequent read_packet behaves exactly as if only
the timestamp had changed. -/
theorem heartbeat_updates_timestamp_only (st : LinkState) (now light : ℚ) :
    processLine st ['9', '\n'] now light = { st with lastHeartbeat := now } ∧
    (processLine st ['9', '\n'] now light).queue = st.queue ∧
    read_packet (processLine st ['9', '\n'] now light) =
      read_packet { st with lastHeartbeat := now } :=
  ⟨rfl, rfl, rfl⟩

/-- Claim C9: a malformed inbound line -- unparseable kind, or a
sensor-report line with a wrong field count or a non-numeric field --
leaves the reader state (queue, heartbeat timestamp, hence is_alive)
completely unchanged, as does an empty line. -/
theorem malformed_line_dropped (st : LinkState) (raw : List Char)
    (now light : ℚ) :
    (parse_line (stripChars raw) = none → processLine st raw now light = st) ∧
    (∀ fields, parse_line (stripChars raw) = some (KIND_SENSOR_REPORT, fields) →
      decode_sensor_report fields light = none →
      processLine st raw now light = st) ∧
    (stripChars raw = [] → processLine st raw now light = st) := by
  refine ⟨fun hp => ?_, fun fields hp hd => ?_, fun hemp => ?_⟩
  · simp only [processLine]
    split
    · rfl
    · simp only [hp]
  · simp only [processLine]
    split
    · rfl
    · simp only [hp, if_true, hd]
      rw [if_neg (by decide : ¬ (KIND_SENSOR_REPORT = KIND_HEARTBEAT))]
  · simp [processLine, hemp]

/-- Claim C9 witness: the concrete line "abc,1,2\n" is dropped; the
queue and is_alive are unaffected. -/
theorem malformed_line_dropped_witness :
    processLine stOpen abcLine 5 7 = stOpen ∧
    (processLine stOpen abcLine 5 7).queue = stOpen.queue ∧
    isAlive (processLine stOpen abcLine 5 7) 1 10 = isAlive stOpen 1 10 := by
  have h := (malformed_line_dropped stOpen abcLine 5 7).1 rfl
  exact ⟨h, by rw [h], by rw [h]⟩

theorem digitChar_ne_nl (n : Nat) : digitChar n ≠ '\n' := by
  unfold digitChar
  repeat' split
  all_goals decide

theorem toDecimalAux_nl_not_mem (fuel : Nat) :
    ∀ n : Nat, '\n' ∉ toDecimalAux fuel n := by
  induction fuel with
  | zero => intro n; simp [toDecimalAux]
  | succ fuel ih =>
    intro n
    unfold toDecimalAux
    split
    · simp only [List.mem_singleton]
      exact fun h => digitChar_ne_nl n h.symm
    · simp only [List.mem_append, List.mem_singleton]
      rintro (h | h)
      · exact ih (n / 10) h
      · exact digitChar_ne_nl (n % 10) h.symm

theorem intRepr_nl_not_mem (z : ℤ) : '\n' ∉ intRepr z := by
  unfold intRepr toDecimal
  split
  · simp only [List.mem_cons]
    rintro (h | h)
    · exact absurd h (by decide)
    · exact toDecimalAux_nl_not_mem _ _ h
  · exact toDecimalAux_nl_not_mem _ _

theorem joinComma_nl_not_mem :
    ∀ fs : List (List Char), (∀ f ∈ fs, '\n' ∉ f) → '\n' ∉ joinComma fs
  | [], _ => by simp [joinComma]
  | [f], h => by simpa [joinComma] using h f (by simp)
  | f :: g :: fs, h => by
    unfold joinComma
    simp only [List.mem_append, List.mem_cons]
    rintro (hf | hc | hm)
    · exact h f (by simp) hf
    · exact absurd hc (by decide)
    · exact joinComma_nl_not_mem (g :: fs) (fun x hx => h x (by simp [hx])) hm

theorem encodeLine_singleLine (fs : List (List Char))
    (h : ∀ f ∈ fs, '\n' ∉ f) : singleLine (encodeLine fs) := by
  unfold encodeLine singleLine
  constructor
  · rw [List.count_append]
    rw [List.count_eq_zero_of_not_mem (joinComma_nl_not_mem fs h)]
    rfl
  · exact List.getLast?_concat _

/-- Claim C4: with the link open, each send with a level in [0,1023]
(and for the peltier a forward flag in '\x7b0,1\x7d') succeeds and appends
exactly one comma-separated newline-terminated line to the transport,
while every out-of-range level or flag fails with ValueError and
writes nothing. -/
theorem send_level_validation (st : LinkState) (level fwd : ℤ)
    (hOpen : st.serOpen = true) :
    ((0 ≤ level ∧ level ≤ 1023) →
      send_pump st level = .ok { st with writes :=
        st.writes ++ [encodeLine [intRepr KIND_CMD_PUMP, intRepr level]] } ∧
      send_fans st level = .ok { st with writes :=
        st.writes ++ [encodeLine [intRepr KIND_CMD_FANS, intRepr level]] } ∧
      singleLine (encodeLine [intRepr KIND_CMD_PUMP, intRepr level]) ∧
      singleLine (encodeLine [intRepr KIND_CMD_FANS, intRepr level])) ∧
    (¬ (0 ≤ level ∧ level ≤ 1023) →
      send_pump st level = .error .valueError ∧
      send_fans st level = .error .valueError ∧
      send_peltier st level fwd = .error .valueError) ∧
    ((0 ≤ level ∧ level ≤ 1023) → (fwd = 0 ∨ fwd = 1) →
      send_peltier st level fwd = .ok { st with writes :=
        st.writes ++ [encodeLine [intRepr KIND_CMD_PELTIER, intRepr level, intRepr fwd]] } ∧
      singleLine (encodeLine [intRepr KIND_CMD_PELTIER, intRepr level, intRepr fwd])) ∧
    ((0 ≤ level ∧ level ≤ 1023) → ¬ (fwd = 0 ∨ fwd = 1) →
      send_peltier st level fwd = .error .valueError) := by
  have hone : ∀ zs : List ℤ, singleLine (encodeLine (zs.map intRepr)) := by
    intro zs
    apply encodeLine_singleLine
    intro f hf
    rcases List.mem_map.mp hf with ⟨z, _, rfl⟩
    exact intRepr_nl_not_mem z
  refine ⟨fun hr => ?_, fun hr => ?_, fun hr hf => ?_, fun hr hf => ?_⟩
  · exact ⟨by simp [send_pump, send_fields, hr, hOpen],
      by simp [send_fans, send_fields, hr, hOpen],
      hone [KIND_CMD_PUMP, level], hone [KIND_CMD_FANS, level]⟩
  · exact ⟨by simp [send_pump, hr], by simp [send_fans, hr],
      by simp [send_peltier, hr]⟩
  · exact ⟨by simp [send_peltier, send_fields, hr, hf, hOpen],
      hone [KIND_CMD_PELTIER, level, fwd]⟩
  · simp [send_peltier, hr, hf]

/-- Claim C4 witness: pump level 512 is written as the single line
"0,512\n"; level 2000 is rejected with ValueError and writes nothing;
peltier flag 2 is rejected with ValueError. -/
theorem send_level_validation_witness :
    send_pump stOpen 512 = .ok { stOpen with
      writes := [['0', ',', '5', '1', '2', '\n']] } ∧
    singleLine ['0', ',', '5', '1', '2', '\n'] ∧
    send_pump stOpen 2000 = .error .valueError ∧
    send_peltier stOpen 512 2 = .error .valueError := by
  have h1 := send_level_validation stOpen 512 2 rfl
  have h2 := send_level_validation stOpen 2000 0 rfl
  have hr : (0 : ℤ) ≤ 512 ∧ (512 : ℤ) ≤ 1023 := by constructor <;> decide
  refine ⟨(h1.1 hr).1, (h1.1 hr).2.2.1, ?_, ?_⟩
  · exact (h2.2.1 (by intro h; exact absurd h.2 (by decide))).1
  · exact h1.2.2.2 hr (by rintro (h | h) <;> exact absurd h (by decide))

/-- Claim C10: while the serial link is not open, read_packet raises
RuntimeError instead of returning the "no packet" result, and the same
guard in _send_fields makes every send fail the same way. -/
theorem closed_link_raises (st : LinkState) (fields : List (List Char))
    (h : st.serOpen = false) :
    read_packet st = .error .runtimeError ∧
    (∀ q, read_packet st ≠ .ok q) ∧
    send_fields st fields = .error .runtimeError := by
  refine ⟨?_, ?_, ?_⟩ <;> simp [read_packet, send_fields, h]

/-- Claim C10 witness: on a concrete closed link, receive and send
both fail with RuntimeError. -/
theorem closed_link_raises_witness :
    read_packet stClosed = .error .runtimeError ∧
    read_packet stClosed ≠ .ok (stClosed, none) ∧
    send_fields stClosed [['9']] = .error .runtimeError := by
  have h := closed_link_raises stClosed [['9']] rfl
  exact ⟨h.1, h.2.1 _, h.2.2⟩

theorem clamp_mem (v lo hi : ℚ) (h : lo ≤ hi) :
    lo ≤ clamp v lo hi ∧ clamp v lo hi ≤ hi := by
  unfold clamp
  split_ifs <;> constructor <;> linarith

theorem peltierStep_fst_mem (tune : ReconcilerTune) (a b c d e f : ℚ) :
    -1023 ≤ (peltierStep tune a b c d e f).1 ∧
      (peltierStep tune a b c d e f).1 ≤ 1023 := by
  simp only [peltierStep]
  exact clamp_mem _ _ _ (by norm_num)

theorem peltierStep_aw (tune : ReconcilerTune) (a b c d e f : ℚ)
    (hKi : 0 < tune.peltier_Ki) (hAw : 0 ≤ tune.aw_limit) :
    |tune.peltier_Ki * (peltierStep tune a b c d e f).2.1| ≤ tune.aw_limit := by
  simp only [peltierStep]
  rw [if_pos hKi, if_pos hKi]
  rw [mul_comm, div_mul_cancel₀ _ (ne_of_gt hKi)]
  exact abs_le.mpr (clamp_mem _ _ _ (by linarith))

theorem peltierStep_fst_Ki0 (tune : ReconcilerTune) (a b c d e f x : ℚ)
    (hKi : tune.peltier_Ki = 0) :
    (peltierStep tune a b c d x f).1 = (peltierStep tune a b c d e f).1 := by
  simp [peltierStep, hKi]

/-- Claim C1 (amended): after any reconcile call with a nonnegative
aw_limit, the peltier channel -- the only PID channel in the final
code -- satisfies |Ki * integral| ≤ aw_limit whenever Ki > 0; when
Ki = 0 the integral contributes nothing to the command (the command is
independent of the stored accumulator), but the accumulator itself is
not in general left untouched (see the counterexample). -/
theorem anti_windup_invariant (prev : ReconcilerState)
    (config : ReconcilerConfig) (tune : ReconcilerTune)
    (report : SensorReport) (dt now : ℚ) (hAw : 0 ≤ tune.aw_limit) :
    (0 < tune.peltier_Ki →
      |tune.peltier_Ki *
        (reconcile_sensor_data prev config tune report dt now).1.integral_temp| ≤
        tune.aw_limit) ∧
    (tune.peltier_Ki = 0 →
      ∀ x : ℚ,
        (reconcile_sensor_data { prev with integral_temp := x }
          config tune report dt now).2 =
        (reconcile_sensor_data prev config tune report dt now).2) := by
  constructor
  · intro hKi
    exact peltierStep_aw tune _ _ _ _ _ _ hKi hAw
  · intro hKi x
    simp only [reconcile_sensor_data]
    rw [peltierStep_fst_Ki0 tune config.target_inner_temp
      (ema_update prev.filt_temp
        (smaStep tune.temp_ema_count prev.temp_ema (report.temp_inner : ℚ)).2
        tune.temp_ema_alpha)
      prev.last_temp_error prev.der_temp prev.integral_temp (effDt dt) x hKi]

/-- Claim C1 witness: with the default tune (Ki = 1/5 > 0, aw_limit =
2) the invariant holds on a concrete hot-report step. -/
theorem anti_windup_invariant_witness :
    |sampleTune.peltier_Ki *
      (reconcile_sensor_data sampleState sampleConfig sampleTune hotReport
        1 43200).1.integral_temp| ≤ sampleTune.aw_limit :=
  (anti_windup_invariant sampleState sampleConfig sampleTune hotReport 1 43200
    (by norm_num [sampleTune])).1 (by norm_num [sampleTune])

/-- Claim C1 counterexample: with peltier Ki = 0 and a 10-degree
temperature error, the integral accumulator changes from 0 to -10 in
one call, so it is not left untouched when Ki = 0. -/
theorem anti_windup_claim_counterexample :
    zeroKiTune.peltier_Ki = 0 ∧
    (reconcile_sensor_data sampleState sampleConfig zeroKiTune hotReport
      1 43200).1.integral_temp ≠ sampleState.integral_temp := by
  refine ⟨rfl, ?_⟩
  norm_num [reconcile_sensor_data, peltierStep, smaStep, ema_update, clamp,
    effDt, is_pump_disabled, zeroKiTune, sampleConfig, sampleState, hotReport]

theorem window_disables_iff (w : Nat × Nat × Nat × Nat) (now : ℚ) :
    window_disables w now = true ↔ windowActiveSpec w now := by
  simp only [window_disables, windowActiveSpec, gt_iff_lt, ge_iff_le]
  split_ifs <;> simp

/-- Claim C2: the returned pump_level follows the on/off rule -- 1023
iff the filtered moisture is strictly below lo − deadband, else 0 --
overridden to 0 whenever the time of day is inside a disable window
(with the wrap-past-midnight convention), with the cutoff rule applied
last. -/
theorem pump_on_off_rule (prev : ReconcilerState) (config : ReconcilerConfig)
    (tune : ReconcilerTune) (report : SensorReport) (dt now fm : ℚ)
    (hfm : (reconcile_sensor_data prev config tune report dt now).1.filt_moist =
      some fm) :
    ((reconcile_sensor_data prev config tune report dt now).2.pump_level =
      (let base : ℤ :=
        if fm < config.moisture_range.1 - tune.moisture_deadband then 1023
        else if config.moisture_range.2 + tune.moisture_deadband < fm then 0
        else 0
       let overridden : ℤ := if is_pump_disabled config now then 0 else base
       if overridden < tune.cutoff then 0 else overridden)) ∧
    (is_pump_disabled config now = true ↔
      ∃ w ∈ config.pump_disable_times, windowActiveSpec w now) := by
  have hfm' : ema_update prev.filt_moist
      (smaStep tune.moisture_ema_count prev.moisture_ema (report.moisture : ℚ)).2
      tune.moisture_ema_alpha = fm := Option.some_inj.mp hfm
  constructor
  · subst hfm'
    cases hd : is_pump_disabled config now <;>
      simp only [reconcile_sensor_data, hd, if_true, if_false, Bool.false_eq_true]
  · rw [is_pump_disabled, List.any_eq_true]
    exact exists_congr fun w =>
      and_congr_right fun _ => window_disables_iff w now

/-- Claim C2 witness: spec scenario D -- moisture far below target but
23:00 inside the 22:00-06:00 disable window forces pump_level = 0. -/
theorem pump_on_off_rule_witness :
    (reconcile_sensor_data sampleState nightConfig sampleTune sampleReport
      1 82800).2.pump_level = 0 := by
  have h := (pump_on_off_rule sampleState nightConfig sampleTune sampleReport
    1 82800 10 (by norm_num [reconcile_sensor_data, smaStep, ema_update, clamp,
      sampleTune, sampleState, sampleReport])).1
  rw [h]
  norm_num [is_pump_disabled, window_disables, nightConfig, sampleTune]

/-- Claim C3: when the filtered moisture lies inside
[lo − deadband, hi + deadband], the call applies no moisture
correction: the moisture integral accumulator and last-error are
unchanged and the pump command is 0 (the final code keeps no separate
moisture error term; these are its observables). -/
theorem moisture_band_frame (prev : ReconcilerState)
    (config : ReconcilerConfig) (tune : ReconcilerTune)
    (report : SensorReport) (dt now fm : ℚ)
    (hfm : (reconcile_sensor_data prev config tune report dt now).1.filt_moist =
      some fm)
    (h1 : config.moisture_range.1 - tune.moisture_deadband ≤ fm)
    (h2 : fm ≤ config.moisture_range.2 + tune.moisture_deadband) :
    (reconcile_sensor_data prev config tune report dt now).1.integral_moisture =
      prev.integral_moisture ∧
    (reconcile_sensor_data prev config tune report dt now).1.last_moisture_error =
      prev.last_moisture_error ∧
    (reconcile_sensor_data prev config tune report dt now).2.pump_level = 0 := by
  have hfm' : ema_update prev.filt_moist
      (smaStep tune.moisture_ema_count prev.moisture_ema (report.moisture : ℚ)).2
      tune.moisture_ema_alpha = fm := Option.some_inj.mp hfm
  refine ⟨rfl, rfl, ?_⟩
  subst hfm'
  simp only [reconcile_sensor_data, not_lt.mpr h1, not_lt.mpr h2, if_false]
  cases is_pump_disabled config now <;> simp

/-- Claim C3 witness: filtered moisture 30 in [19, 61] leaves the
moisture integral unchanged and outputs pump 0. -/
theorem moisture_band_frame_witness :
    (reconcile_sensor_data sampleState sampleConfig sampleTune
      { sampleReport with moisture := 30 } 1 43200).1.integral_moisture =
      sampleState.integral_moisture ∧
    (reconcile_sensor_data sampleState sampleConfig sampleTune
      { sampleReport with moisture := 30 } 1 43200).2.pump_level = 0 := by
  have h := moisture_band_frame sampleState sampleConfig sampleTune
    { sampleReport with moisture := 30 } 1 43200 30
    (by norm_num [reconcile_sensor_data, smaStep, ema_update, clamp,
      sampleTune, sampleState, sampleReport])
    (by norm_num [sampleConfig, sampleTune])
    (by norm_num [sampleConfig, sampleTune])
  exact ⟨h.1, h.2.2⟩

/-- Claim C6: peltier_forward is 0 exactly when the (saturated)
peltier output is ≥ 0 and 1 otherwise; peltier_level is the rounded
absolute value of the output after saturation to [-1023, 1023], forced
to 0 below the cutoff. -/
theorem peltier_output_encoding (prev : ReconcilerState)
    (config : ReconcilerConfig) (tune : ReconcilerTune)
    (report : SensorReport) (dt now ft : ℚ)
    (hft : (reconcile_sensor_data prev config tune report dt now).1.filt_temp =
      some ft) :
    ((reconcile_sensor_data prev config tune report dt now).2.peltier_forward =
      (if 0 ≤ (peltierStep tune config.target_inner_temp ft
          prev.last_temp_error prev.der_temp prev.integral_temp (effDt dt)).1
        then 0 else 1)) ∧
    ((reconcile_sensor_data prev config tune report dt now).2.peltier_level =
      (if pyRound |(peltierStep tune config.target_inner_temp ft
            prev.last_temp_error prev.der_temp prev.integral_temp (effDt dt)).1| <
          tune.cutoff
        then 0
        else pyRound |(peltierStep tune config.target_inner_temp ft
          prev.last_temp_error prev.der_temp prev.integral_temp (effDt dt)).1|)) ∧
    -1023 ≤ (peltierStep tune config.target_inner_temp ft
      prev.last_temp_error prev.der_temp prev.integral_temp (effDt dt)).1 ∧
    (peltierStep tune config.target_inner_temp ft
      prev.last_temp_error prev.der_temp prev.integral_temp (effDt dt)).1 ≤ 1023 := by
  have hft' : ema_update prev.filt_temp
      (smaStep tune.temp_ema_count prev.temp_ema (report.temp_inner : ℚ)).2
      tune.temp_ema_alpha = ft := Option.some_inj.mp hft
  subst hft'
  exact ⟨rfl, rfl, (peltierStep_fst_mem tune _ _ _ _ _ _).1,
    (peltierStep_fst_mem tune _ _ _ _ _ _).2⟩

/-- Claim C6 witness: a hot report drives the output to the -1023
bound; forward = 1 and level = 1023 on a concrete call. -/
theorem peltier_output_encoding_witness :
    (reconcile_sensor_data sampleState sampleConfig sampleTune hotReport
      1 43200).2.peltier_forward = 1 ∧
    (reconcile_sensor_data sampleState sampleConfig sampleTune hotReport
      1 43200).2.peltier_level = 502 := by
  have h := peltier_output_encoding sampleState sampleConfig sampleTune
    hotReport 1 43200
    (ema_update sampleState.filt_temp
      (smaStep sampleTune.temp_ema_count sampleState.temp_ema
        (hotReport.temp_inner : ℚ)).2 sampleTune.temp_ema_alpha) rfl
  refine ⟨?_, ?_⟩
  · rw [h.1]
    norm_num [peltierStep, smaStep, ema_update, clamp, effDt,
      sampleTune, sampleConfig, sampleState, hotReport]
  · rw [h.2.1]
    norm_num [peltierStep, smaStep, ema_update, clamp, effDt, pyRound,
      abs_of_nonneg, abs_of_nonpos, Int.fract,
      sampleTune, sampleConfig, sampleState, hotReport]

theorem smaStep_zero_count (buf : List ℚ) (x : ℚ) :
    smaStep 0 buf x = (buf, x) := by
  simp [smaStep]

theorem smaStep_pos (count : Nat) (hpos : 0 < count) (buf : List ℚ) (x : ℚ) :
    smaStep count buf x =
      (let b := if count < (buf ++ [x]).length then (buf ++ [x]).tail
        else buf ++ [x]
       (b, b.sum / (b.length : ℚ))) := by
  simp [smaStep, hpos]

theorem smaStep_len (count : Nat) (buf : List ℚ) (x : ℚ)
    (h : buf.length ≤ count) : ((smaStep count buf x).1).length ≤ count := by
  rcases Nat.eq_zero_or_pos count with h0 | hpos
  · subst h0
    simpa [smaStep_zero_count] using h
  · rw [smaStep_pos count hpos]
    simp only
    split
    · simpa [List.length_tail] using h
    · rename_i hl
      simp only [List.length_append, List.length_singleton] at hl ⊢
      omega

theorem smaStep_suffix (count : Nat) (hpos : 0 < count) (L : List ℚ) (x : ℚ) :
    (smaStep count (L.drop (L.length - count)) x).1 =
      (L ++ [x]).drop ((L ++ [x]).length - count) := by
  rw [smaStep_pos count hpos]
  simp only
  rcases lt_or_le L.length count with hlt | hge
  · have h0 : L.length - count = 0 := by omega
    rw [if_neg (by simp [h0]; omega)]
    have h1 : (L ++ [x]).length - count = 0 := by simp; omega
    rw [h0, List.drop_zero, h1, List.drop_zero]
  · have hS : (L.drop (L.length - count)).length = count := by simp; omega
    rw [if_pos (by simp [hS])]
    obtain ⟨a, S', hS'⟩ : ∃ a S', L.drop (L.length - count) = a :: S' := by
      cases hSS : L.drop (L.length - count) with
      | nil => rw [hSS] at hS; simp at hS; omega
      | cons a S' => exact ⟨a, S', rfl⟩
    rw [hS']
    simp only [List.cons_append, List.tail_cons]
    have h2 : (L ++ [x]).length - count = (L.length - count) + 1 := by
      simp; omega
    rw [h2, List.drop_append_of_le_length (by omega)]
    have h3 : L.drop (L.length - count + 1) = S' := by
      rw [← List.tail_drop, hS', List.tail_cons]
    rw [h3]

theorem runSMA_append (count : Nat) (xs : List ℚ) (x : ℚ) :
    runSMA count (xs ++ [x]) = smaStep count (runSMA count xs).1 x := by
  simp [runSMA, List.foldl_append]

theorem runSMA_buf (count : Nat) (hpos : 0 < count) (xs : List ℚ) :
    (runSMA count xs).1 = xs.drop (xs.length - count) := by
  induction xs using List.reverseRecOn with
  | nil => simp [runSMA]
  | append_singleton ys y ih =>
    rw [runSMA_append, ih]
    exact smaStep_suffix count hpos ys y

theorem smaStep_val (count : Nat) (hpos : 0 < count) (buf : List ℚ) (x : ℚ) :
    (smaStep count buf x).2 =
      ((smaStep count buf x).1).sum / (((smaStep count buf x).1).length : ℚ) := by
  rw [smaStep_pos count hpos]

theorem runSMA_sma (count : Nat) (hpos : 0 < count) (xs : List ℚ)
    (hlen : count ≤ xs.length) :
    (runSMA count xs).2 = (xs.drop (xs.length - count)).sum / (count : ℚ) := by
  rcases List.eq_nil_or_concat xs with rfl | ⟨ys, y, rfl⟩
  · simp at hlen
    exact absurd hlen (by omega)
  · rw [List.concat_eq_append] at hlen ⊢
    rw [runSMA_append, smaStep_val count hpos, ← runSMA_append,
      runSMA_buf count hpos]
    have hl : ((ys ++ [y]).drop ((ys ++ [y]).length - count)).length = count := by
      simp only [List.length_drop]
      simp only [List.length_append, List.length_singleton] at hlen ⊢
      omega
    rw [hl]

/-- Claim C5: the warmup buffer of each channel is exactly the buffer
produced by the push-then-evict SMA step; its length never grows past
the configured count; count 0 disables the stage and passes the raw
sample through; and along any trajectory from the empty buffer, once
at least `count` samples have been pushed, the buffer is exactly the
last `count` raw samples and the SMA equals their arithmetic mean. -/
theorem warmup_sma_invariant (prev : ReconcilerState)
    (config : ReconcilerConfig) (tune : ReconcilerTune)
    (report : SensorReport) (dt now : ℚ) :
    ((reconcile_sensor_data prev config tune report dt now).1.temp_ema =
      (smaStep tune.temp_ema_count prev.temp_ema (report.temp_inner : ℚ)).1) ∧
    ((reconcile_sensor_data prev config tune report dt now).1.moisture_ema =
      (smaStep tune.moisture_ema_count prev.moisture_ema (report.moisture : ℚ)).1) ∧
    (prev.temp_ema.length ≤ tune.temp_ema_count →
      ((reconcile_sensor_data prev config tune report dt now).1.temp_ema).length ≤
        tune.temp_ema_count) ∧
    (prev.moisture_ema.length ≤ tune.moisture_ema_count →
      ((reconcile_sensor_data prev config tune report dt now).1.moisture_ema).length ≤
        tune.moisture_ema_count) ∧
    (∀ buf : List ℚ, ∀ x : ℚ, smaStep 0 buf x = (buf, x)) ∧
    (∀ count : Nat, ∀ xs : List ℚ, 0 < count → count ≤ xs.length →
      (runSMA count xs).1 = xs.drop (xs.length - count) ∧
      (runSMA count xs).2 = (xs.drop (xs.length - count)).sum / (count : ℚ)) :=
  ⟨rfl, rfl, fun h => smaStep_len _ _ _ h, fun h => smaStep_len _ _ _ h,
    smaStep_zero_count,
    fun count xs hpos hlen =>
      ⟨runSMA_buf count hpos xs, runSMA_sma count hpos xs hlen⟩⟩

/-- Claim C5 witness: with count 2 and samples [1, 2, 3] the buffer is
the last two samples and the SMA is their mean 5/2; a concrete
reconcile call keeps the buffer within its bound. -/
theorem warmup_sma_invariant_witness :
    (runSMA 2 [1, 2, 3]).1 = [2, 3] ∧ (runSMA 2 [1, 2, 3]).2 = 5/2 ∧
    ((reconcile_sensor_data sampleState sampleConfig sampleTune sampleReport
      1 43200).1.moisture_ema).length ≤ sampleTune.moisture_ema_count := by
  have h := warmup_sma_invariant sampleState sampleConfig sampleTune
    sampleReport 1 43200
  have ht := h.2.2.2.2.2 2 [1, 2, 3] (by norm_num) (by norm_num)
  refine ⟨?_, ?_, h.2.2.2.1 (by norm_num [sampleState, sampleTune])⟩
  · rw [ht.1]
    rfl
  · rw [ht.2]
    norm_num

theorem effDt_pos (dt : ℚ) : 0 < effDt dt := by
  unfold effDt
  split_ifs with h
  · norm_num
  · linarith [not_le.mp h]

theorem divO_some (a b : ℚ) (h : b ≠ 0) : divO a b = some (a / b) := if_neg h

theorem smaStepChecked_eq (count : Nat) (buf : List ℚ) (x : ℚ) :
    smaStepChecked count buf x = some (smaStep count buf x) := by
  rcases Nat.eq_zero_or_pos count with h0 | hpos
  · subst h0
    simp [smaStepChecked, smaStep]
  · simp only [smaStepChecked, smaStep, if_pos hpos]
    have hlen : (if count < (buf ++ [x]).length then (buf ++ [x]).tail
        else buf ++ [x]).length ≠ 0 := by
      split
      · rename_i hl
        simp only [List.length_tail, List.length_append,
          List.length_singleton] at hl ⊢
        omega
      · simp
    rw [divO_some _ _ (Nat.cast_ne_zero.mpr hlen)]
    rfl

theorem peltierStepChecked_eq (tune : ReconcilerTune)
    (tg fl le dp ig dtv : ℚ) (hdt : 0 < dtv) :
    peltierStepChecked tune tg fl le dp ig dtv =
      some (peltierStep tune tg fl le dp ig dtv) := by
  simp only [peltierStepChecked, peltierStep]
  have h1 : (if 0 < tune.der_tau then divO tune.der_tau (tune.der_tau + dtv)
      else some 0) =
      some (if 0 < tune.der_tau then tune.der_tau / (tune.der_tau + dtv)
        else 0) := by
    split_ifs with h
    · exact divO_some _ _ (by linarith)
    · rfl
  rw [h1]
  simp only [Option.some_bind']
  rw [divO_some _ _ (ne_of_gt hdt)]
  simp only [Option.some_bind']
  have h2 : ∀ u v : ℚ,
      (if 0 < tune.peltier_Ki then divO u tune.peltier_Ki else some v) =
      some (if 0 < tune.peltier_Ki then u / tune.peltier_Ki else v) := by
    intro u v
    split_ifs with h
    · exact divO_some _ _ (ne_of_gt h)
    · rfl
  rw [h2]
  simp only [Option.some_bind']

theorem reconcile_checked_eq (prev : ReconcilerState)
    (config : ReconcilerConfig) (tune : ReconcilerTune)
    (report : SensorReport) (dt now : ℚ) :
    reconcile_checked prev config tune report dt now =
      some (reconcile_sensor_data prev config tune report dt now) := by
  simp only [reconcile_checked, reconcile_sensor_data]
  rw [smaStepChecked_eq]
  simp only [Option.some_bind']
  rw [smaStepChecked_eq]
  simp only [Option.some_bind']
  rw [peltierStepChecked_eq tune _ _ _ _ _ _ (effDt_pos dt)]
  simp only [Option.some_bind']

/-- Claim C7: the reconciler is total -- with every division modelled
as fallible, reconcile always succeeds (every divisor is positive),
and a non-positive dt is clamped to the epsilon 1e-3 rather than
rejected: the call behaves exactly as with dt = 1/1000. -/
theorem reconcile_never_fails (prev : ReconcilerState)
    (config : ReconcilerConfig) (tune : ReconcilerTune)
    (report : SensorReport) (dt now : ℚ) :
    reconcile_checked prev config tune report dt now =
      some (reconcile_sensor_data prev config tune report dt now) ∧
    (dt ≤ 0 → reconcile_sensor_data prev config tune report dt now =
      reconcile_sensor_data prev config tune report (1/1000) now) := by
  refine ⟨reconcile_checked_eq prev config tune report dt now, fun h => ?_⟩
  have hdt : effDt dt = effDt (1/1000) := by
    unfold effDt
    rw [if_pos h, if_neg (by norm_num)]
  simp only [reconcile_sensor_data]
  rw [hdt]

/-- Claim C7 witness: a call with dt = 0 succeeds and equals the call
with dt = 1/1000. -/
theorem reconcile_never_fails_witness :
    reconcile_checked sampleState sampleConfig sampleTune sampleReport
      0 43200 =
      some (reconcile_sensor_data sampleState sampleConfig sampleTune
        sampleReport 0 43200) ∧
    reconcile_sensor_data sampleState sampleConfig sampleTune sampleReport
      0 43200 =
      reconcile_sensor_data sampleState sampleConfig sampleTune sampleReport
        (1/1000) 43200 := by
  have h := reconcile_never_fails sampleState sampleConfig sampleTune
    sampleReport 0 43200
  exact ⟨h.1, h.2 (by norm_num)⟩

end Farm
